import Mathlib

/-!
# The evaluator factory of `internal/ceres/evaluator.cc`

A shallow embedding of `Evaluator::Create`: the function that maps an
`Evaluator::Options` value to one fixed instantiation of the
`ProgramEvaluator` template, or reports an invalid linear solver type.

The C++ function has three observable effects, all of which are kept:

* the `CHECK` on `options.context`, which terminates the process when it fails;
* the returned `std::unique_ptr<Evaluator>` (possibly `nullptr`);
* the store through the out-parameter `std::string* error`.
-/

namespace ceres.internal

/-- Values of the enumeration `LinearSolverType`, as `Evaluator::Create` sees them.
The seven named constructors are the seven `case` labels of the `switch`.
`unlisted raw` stands for every other value the enumeration object can hold
(an enumerator the switch does not name, or an out-of-range value obtained by a
cast); such a value reaches the `default:` label. -/
inductive LinearSolverType where
  | DENSE_QR
  | DENSE_NORMAL_CHOLESKY
  | DENSE_SCHUR
  | SPARSE_SCHUR
  | ITERATIVE_SCHUR
  | CGNR
  | SPARSE_NORMAL_CHOLESKY
  | unlisted (raw : Nat)
  deriving DecidableEq, Repr

/-- Values of the enumeration `SparseLinearAlgebraLibraryType`, as
`Evaluator::Create` sees them: the function compares the field with
`CUDA_SPARSE` only, so every other value of the enumeration is `other raw`. -/
inductive SparseLinearAlgebraLibraryType where
  | CUDA_SPARSE
  | other (raw : Nat)
  deriving DecidableEq, Repr

/-- The object behind the pointer `options.context`. `Evaluator::Create` only
tests the pointer against `nullptr`; the handle identifies the pointee. -/
structure ContextImpl where
  handle : Nat
  deriving DecidableEq, Repr

/-- The object behind the pointer `Program* program`. `Evaluator::Create` never
looks inside it; it forwards the pointer to the evaluator's constructor. -/
structure Program where
  handle : Nat
  deriving DecidableEq, Repr

/-- Modelled from the spec: the declaration of `Evaluator::Options` lives in
`ceres/evaluator.h`, a header outside `evaluator.cc`. The fields are
the ones the data model lists (linear-solver family, sparse-library choice,
dynamic-sparsity flag, thread count, execution context), under the names
`Evaluator::Create` uses for them. `context = none` is the null pointer. -/
structure Evaluator.Options where
  num_threads : Int
  linear_solver_type : LinearSolverType
  sparse_linear_algebra_library_type : SparseLinearAlgebraLibraryType
  dynamic_sparsity : Bool
  context : Option ContextImpl
  deriving DecidableEq, Repr

/-- First template argument of `ProgramEvaluator`. -/
inductive EvaluatePreparer where
  | ScratchEvaluatePreparer
  | BlockEvaluatePreparer
  deriving DecidableEq, Repr

/-- Second template argument of `ProgramEvaluator`. -/
inductive JacobianWriter where
  | DenseJacobianWriter
  | BlockJacobianWriter
  | CompressedRowJacobianWriter
  | DynamicCompressedRowJacobianWriter
  deriving DecidableEq, Repr

/-- Third template argument of `ProgramEvaluator`, where `Evaluator::Create`
writes one. -/
inductive JacobianFinalizer where
  | DynamicCompressedRowJacobianFinalizer
  deriving DecidableEq, Repr

/-- One instantiation `ProgramEvaluator<Preparer, Writer[, Finalizer]>`
constructed by `std::make_unique<...>(options, program)`.
`finalizer = none` records that the third template argument is not written at
the call site. `options` and `program` are the two constructor arguments. -/
structure ProgramEvaluator where
  preparer : EvaluatePreparer
  writer : JacobianWriter
  finalizer : Option JacobianFinalizer
  options : Evaluator.Options
  program : Program
  deriving DecidableEq, Repr

/-- How a call of `Evaluator::Create` ends.
* `checkFailed`: the `CHECK` failed and the process was terminated; nothing is
  returned to the caller.
* `nullStore`: the function executed `*error = ...` with `error == nullptr`.
* `returned ev`: the function returned normally; `ev = none` is a null
  `std::unique_ptr<Evaluator>`. -/
inductive Outcome where
  | checkFailed
  | nullStore
  | returned (ev : Option ProgramEvaluator)
  deriving DecidableEq, Repr

/-- The observable result of one call: how it ended, and the state of the
caller's error string afterwards (`none` when the caller passed `nullptr`). -/
structure CreateResult where
  outcome : Outcome
  error : Option String
  deriving DecidableEq, Repr

/-- The string literal assigned to `*error` under the `default:` label. -/
def invalidLinearSolverTypeMessage : String :=
  "Invalid Linear Solver Type. Unable to create evaluator."

/-- The function `Evaluator::Create` of `evaluator.cc`, lines 53-99.
`error` is the out-parameter `std::string* error` on entry: `none` for a null
pointer, `some s` for a pointer to a string holding `s`. -/
def Evaluator.Create (options : Evaluator.Options) (program : Program)
    (error : Option String) : CreateResult :=
  match options.context with
  | none => { outcome := .checkFailed, error := error }
  | some _ =>
    match options.linear_solver_type with
    | .DENSE_QR | .DENSE_NORMAL_CHOLESKY =>
      { outcome := .returned (some
          { preparer := .ScratchEvaluatePreparer, writer := .DenseJacobianWriter,
            finalizer := none, options := options, program := program }),
        error := error }
    | .DENSE_SCHUR | .SPARSE_SCHUR | .ITERATIVE_SCHUR =>
      { outcome := .returned (some
          { preparer := .BlockEvaluatePreparer, writer := .BlockJacobianWriter,
            finalizer := none, options := options, program := program }),
        error := error }
    | .CGNR =>
      if options.sparse_linear_algebra_library_type = .CUDA_SPARSE then
        { outcome := .returned (some
            { preparer := .ScratchEvaluatePreparer,
              writer := .CompressedRowJacobianWriter,
              finalizer := none, options := options, program := program }),
          error := error }
      else
        { outcome := .returned (some
            { preparer := .BlockEvaluatePreparer, writer := .BlockJacobianWriter,
              finalizer := none, options := options, program := program }),
          error := error }
    | .SPARSE_NORMAL_CHOLESKY =>
      if options.dynamic_sparsity then
        { outcome := .returned (some
            { preparer := .ScratchEvaluatePreparer,
              writer := .DynamicCompressedRowJacobianWriter,
              finalizer := some .DynamicCompressedRowJacobianFinalizer,
              options := options, program := program }),
          error := error }
      else
        { outcome := .returned (some
            { preparer := .BlockEvaluatePreparer, writer := .BlockJacobianWriter,
              finalizer := none, options := options, program := program }),
          error := error }
    | .unlisted _ =>
      match error with
      | none => { outcome := .nullStore, error := none }
      | some _ =>
        { outcome := .returned none,
          error := some invalidLinearSolverTypeMessage }

/-- A non-null execution context used for concrete inputs. -/
def sampleContext : ContextImpl := { handle := 1 }

/-- A program used for concrete inputs. -/
def sampleProgram : Program := { handle := 2 }

/-- Single-threaded options over `sampleContext` with the three fields that
`Evaluator::Create` branches on. -/
def sampleOptions (t : LinearSolverType) (l : SparseLinearAlgebraLibraryType)
    (d : Bool) : Evaluator.Options :=
  { num_threads := 1, linear_solver_type := t,
    sparse_linear_algebra_library_type := l, dynamic_sparsity := d,
    context := some sampleContext }

/-! ## The factory's error contract -/

/-- Claim C1. With a non-null context and a valid error string, `Evaluator::Create`
returns a null evaluator exactly when the linear solver type is none of
DENSE_QR, DENSE_NORMAL_CHOLESKY, DENSE_SCHUR, SPARSE_SCHUR, ITERATIVE_SCHUR,
CGNR, SPARSE_NORMAL_CHOLESKY; and whenever it returns null, the error string
afterwards holds the non-empty message
"Invalid Linear Solver Type. Unable to create evaluator." and the call has
not ended in a failed `CHECK`. -/
theorem Create_null_iff_invalid_type (o : Evaluator.Options) (p : Program)
    (e : String) (hctx : o.context ≠ none) :
    ((Evaluator.Create o p (some e)).outcome = Outcome.returned none ↔
      ¬ (o.linear_solver_type = LinearSolverType.DENSE_QR ∨
         o.linear_solver_type = LinearSolverType.DENSE_NORMAL_CHOLESKY ∨
         o.linear_solver_type = LinearSolverType.DENSE_SCHUR ∨
         o.linear_solver_type = LinearSolverType.SPARSE_SCHUR ∨
         o.linear_solver_type = LinearSolverType.ITERATIVE_SCHUR ∨
         o.linear_solver_type = LinearSolverType.CGNR ∨
         o.linear_solver_type = LinearSolverType.SPARSE_NORMAL_CHOLESKY)) ∧
    (∀ ep : Option String,
      (Evaluator.Create o p ep).outcome = Outcome.returned none →
        (Evaluator.Create o p ep).error =
            some "Invalid Linear Solver Type. Unable to create evaluator." ∧
        "Invalid Linear Solver Type. Unable to create evaluator." ≠ "" ∧
        (Evaluator.Create o p ep).outcome ≠ Outcome.checkFailed) := by
  obtain ⟨nt, lst, lib, dyn, ctx⟩ := o
  cases ctx with
  | none => exact absurd rfl hctx
  | some c =>
    refine ⟨?_, ?_⟩
    · cases lst <;> cases lib <;> cases dyn <;> simp [Evaluator.Create]
    · intro ep
      cases lst <;> cases lib <;> cases dyn <;> cases ep <;>
        simp [Evaluator.Create, invalidLinearSolverTypeMessage]

/-- Witness for claim C1: an unlisted solver type with a non-null context makes
`Evaluator::Create` return null and overwrite the error string. -/
theorem Create_null_iff_invalid_type_witness :
    (sampleOptions (LinearSolverType.unlisted 7)
        (SparseLinearAlgebraLibraryType.other 0) false).context ≠ none ∧
    (Evaluator.Create
        (sampleOptions (LinearSolverType.unlisted 7)
          (SparseLinearAlgebraLibraryType.other 0) false)
        sampleProgram (some "stale")).error =
      some "Invalid Linear Solver Type. Unable to create evaluator." :=
  ⟨by decide,
   ((Create_null_iff_invalid_type
      (sampleOptions (LinearSolverType.unlisted 7)
        (SparseLinearAlgebraLibraryType.other 0) false)
      sampleProgram "stale" (by decide)).2 (some "stale") rfl).1⟩

/-- Claim C6. With a null context the `CHECK` fails whatever the linear solver
type is, an unlisted one included: the call ends in the failed check, so it
returns neither an evaluator nor null, and the error string is left as it was
on entry. -/
theorem Create_null_context_check_fails (o : Evaluator.Options) (p : Program)
    (ep : Option String) (hctx : o.context = none) :
    (Evaluator.Create o p ep).outcome = Outcome.checkFailed ∧
    (∀ ev : Option ProgramEvaluator,
      (Evaluator.Create o p ep).outcome ≠ Outcome.returned ev) ∧
    (Evaluator.Create o p ep).error = ep := by
  obtain ⟨nt, lst, lib, dyn, ctx⟩ := o
  cases ctx with
  | none => simp [Evaluator.Create]
  | some c => cases hctx

/-- Witness for claim C6: a null context together with an unlisted solver type
ends in the failed check and leaves the error string alone. -/
theorem Create_null_context_check_fails_witness :
    (Evaluator.Create
        { num_threads := 1, linear_solver_type := LinearSolverType.unlisted 7,
          sparse_linear_algebra_library_type := SparseLinearAlgebraLibraryType.CUDA_SPARSE,
          dynamic_sparsity := true, context := none }
        sampleProgram (some "stale")).outcome = Outcome.checkFailed ∧
    (Evaluator.Create
        { num_threads := 1, linear_solver_type := LinearSolverType.unlisted 7,
          sparse_linear_algebra_library_type := SparseLinearAlgebraLibraryType.CUDA_SPARSE,
          dynamic_sparsity := true, context := none }
        sampleProgram (some "stale")).error = some "stale" :=
  ⟨(Create_null_context_check_fails
      { num_threads := 1, linear_solver_type := LinearSolverType.unlisted 7,
        sparse_linear_algebra_library_type := SparseLinearAlgebraLibraryType.CUDA_SPARSE,
        dynamic_sparsity := true, context := none }
      sampleProgram (some "stale") rfl).1,
   (Create_null_context_check_fails
      { num_threads := 1, linear_solver_type := LinearSolverType.unlisted 7,
        sparse_linear_algebra_library_type := SparseLinearAlgebraLibraryType.CUDA_SPARSE,
        dynamic_sparsity := true, context := none }
      sampleProgram (some "stale") rfl).2.2⟩

/-- Claim C10. With a non-null context and a linear solver type that has a
`case` label, `Evaluator::Create` leaves the error string as it was on entry,
also when the pointer is null, and what it returns is the same for every
entry state of the error string. The error string differs from its entry state
only after a call that returned null. -/
theorem Create_success_keeps_error (o : Evaluator.Options) (p : Program)
    (ep : Option String) (hctx : o.context ≠ none) :
    ((o.linear_solver_type = LinearSolverType.DENSE_QR ∨
      o.linear_solver_type = LinearSolverType.DENSE_NORMAL_CHOLESKY ∨
      o.linear_solver_type = LinearSolverType.DENSE_SCHUR ∨
      o.linear_solver_type = LinearSolverType.SPARSE_SCHUR ∨
      o.linear_solver_type = LinearSolverType.ITERATIVE_SCHUR ∨
      o.linear_solver_type = LinearSolverType.CGNR ∨
      o.linear_solver_type = LinearSolverType.SPARSE_NORMAL_CHOLESKY) →
        (Evaluator.Create o p ep).error = ep ∧
        (∃ ev : ProgramEvaluator,
          ∀ ep2 : Option String,
            (Evaluator.Create o p ep2).outcome = Outcome.returned (some ev))) ∧
    ((Evaluator.Create o p ep).error ≠ ep →
      (Evaluator.Create o p ep).outcome = Outcome.returned none) := by
  obtain ⟨nt, lst, lib, dyn, ctx⟩ := o
  cases ctx with
  | none => exact absurd rfl hctx
  | some c =>
    refine ⟨?_, ?_⟩
    · intro hs
      cases lst <;> cases lib <;> cases dyn <;>
        simp [Evaluator.Create] at hs ⊢
    · cases lst <;> cases lib <;> cases dyn <;> cases ep <;>
        simp [Evaluator.Create]

/-- Witness for claim C10: a DENSE_QR call leaves a stale error string alone. -/
theorem Create_success_keeps_error_witness :
    (sampleOptions LinearSolverType.DENSE_QR
        (SparseLinearAlgebraLibraryType.other 0) false).context ≠ none ∧
    (Evaluator.Create
        (sampleOptions LinearSolverType.DENSE_QR
          (SparseLinearAlgebraLibraryType.other 0) false)
        sampleProgram (some "stale")).error = some "stale" :=
  ⟨by decide,
   ((Create_success_keeps_error
      (sampleOptions LinearSolverType.DENSE_QR
        (SparseLinearAlgebraLibraryType.other 0) false)
      sampleProgram (some "stale") (by decide)).1 (Or.inl rfl)).1⟩

/-! ## The mapping from configuration to strategy combination -/

/-- Claim C4. With a non-null context and linear solver type DENSE_QR or
DENSE_NORMAL_CHOLESKY, `Evaluator::Create` returns a non-null evaluator built
from the Scratch preparer and the Dense writer with no finalizer, whatever the
sparse library and the dynamic-sparsity flag are. -/
theorem Create_dense (o : Evaluator.Options) (p : Program) (ep : Option String)
    (hctx : o.context ≠ none)
    (ht : o.linear_solver_type = LinearSolverType.DENSE_QR ∨
          o.linear_solver_type = LinearSolverType.DENSE_NORMAL_CHOLESKY) :
    (Evaluator.Create o p ep).outcome =
      Outcome.returned (some
        { preparer := EvaluatePreparer.ScratchEvaluatePreparer,
          writer := JacobianWriter.DenseJacobianWriter,
          finalizer := none, options := o, program := p }) := by
  obtain ⟨nt, lst, lib, dyn, ctx⟩ := o
  cases ctx with
  | none => exact absurd rfl hctx
  | some c =>
    rcases ht with ht | ht <;> simp only at ht <;> subst ht <;>
      simp [Evaluator.Create]

/-- Witness for claim C4: DENSE_NORMAL_CHOLESKY with the CUDA sparse library
and the dynamic-sparsity flag set. -/
theorem Create_dense_witness :
    (Evaluator.Create
        (sampleOptions LinearSolverType.DENSE_NORMAL_CHOLESKY
          SparseLinearAlgebraLibraryType.CUDA_SPARSE true)
        sampleProgram none).outcome =
      Outcome.returned (some
        { preparer := EvaluatePreparer.ScratchEvaluatePreparer,
          writer := JacobianWriter.DenseJacobianWriter,
          finalizer := none,
          options := sampleOptions LinearSolverType.DENSE_NORMAL_CHOLESKY
            SparseLinearAlgebraLibraryType.CUDA_SPARSE true,
          program := sampleProgram }) :=
  Create_dense
    (sampleOptions LinearSolverType.DENSE_NORMAL_CHOLESKY
      SparseLinearAlgebraLibraryType.CUDA_SPARSE true)
    sampleProgram none (by decide) (Or.inr rfl)

/-- Claim C5. With a non-null context and linear solver type DENSE_SCHUR,
SPARSE_SCHUR or ITERATIVE_SCHUR, `Evaluator::Create` returns a non-null
evaluator built from the Block preparer and the BlockSparse writer with no
finalizer, for any sparse library and any value of the dynamic-sparsity flag. -/
theorem Create_schur (o : Evaluator.Options) (p : Program) (ep : Option String)
    (hctx : o.context ≠ none)
    (ht : o.linear_solver_type = LinearSolverType.DENSE_SCHUR ∨
          o.linear_solver_type = LinearSolverType.SPARSE_SCHUR ∨
          o.linear_solver_type = LinearSolverType.ITERATIVE_SCHUR) :
    (Evaluator.Create o p ep).outcome =
      Outcome.returned (some
        { preparer := EvaluatePreparer.BlockEvaluatePreparer,
          writer := JacobianWriter.BlockJacobianWriter,
          finalizer := none, options := o, program := p }) := by
  obtain ⟨nt, lst, lib, dyn, ctx⟩ := o
  cases ctx with
  | none => exact absurd rfl hctx
  | some c =>
    rcases ht with ht | ht | ht <;> simp only at ht <;> subst ht <;>
      simp [Evaluator.Create]

/-- Witness for claim C5: ITERATIVE_SCHUR with the CUDA sparse library. -/
theorem Create_schur_witness :
    (Evaluator.Create
        (sampleOptions LinearSolverType.ITERATIVE_SCHUR
          SparseLinearAlgebraLibraryType.CUDA_SPARSE false)
        sampleProgram none).outcome =
      Outcome.returned (some
        { preparer := EvaluatePreparer.BlockEvaluatePreparer,
          writer := JacobianWriter.BlockJacobianWriter,
          finalizer := none,
          options := sampleOptions LinearSolverType.ITERATIVE_SCHUR
            SparseLinearAlgebraLibraryType.CUDA_SPARSE false,
          program := sampleProgram }) :=
  Create_schur
    (sampleOptions LinearSolverType.ITERATIVE_SCHUR
      SparseLinearAlgebraLibraryType.CUDA_SPARSE false)
    sampleProgram none (by decide) (Or.inr (Or.inr rfl))

/-- Claim C3. With a non-null context and linear solver type CGNR, whatever the
dynamic-sparsity flag: if the sparse library is CUDA_SPARSE, `Evaluator::Create`
returns a non-null evaluator built from the Scratch preparer and the
CompressedRow writer with no finalizer; for every other sparse library it
returns one built from the Block preparer and the BlockSparse writer with no
finalizer. -/
theorem Create_cgnr (o : Evaluator.Options) (p : Program) (ep : Option String)
    (hctx : o.context ≠ none)
    (ht : o.linear_solver_type = LinearSolverType.CGNR) :
    (o.sparse_linear_algebra_library_type = SparseLinearAlgebraLibraryType.CUDA_SPARSE →
      (Evaluator.Create o p ep).outcome =
        Outcome.returned (some
          { preparer := EvaluatePreparer.ScratchEvaluatePreparer,
            writer := JacobianWriter.CompressedRowJacobianWriter,
            finalizer := none, options := o, program := p })) ∧
    (o.sparse_linear_algebra_library_type ≠ SparseLinearAlgebraLibraryType.CUDA_SPARSE →
      (Evaluator.Create o p ep).outcome =
        Outcome.returned (some
          { preparer := EvaluatePreparer.BlockEvaluatePreparer,
            writer := JacobianWriter.BlockJacobianWriter,
            finalizer := none, options := o, program := p })) := by
  obtain ⟨nt, lst, lib, dyn, ctx⟩ := o
  cases ctx with
  | none => exact absurd rfl hctx
  | some c =>
    simp only at ht
    subst ht
    cases lib <;> simp [Evaluator.Create]

/-- Witness for claim C3: CGNR with the CUDA sparse library and the
dynamic-sparsity flag set selects the CompressedRow writer. -/
theorem Create_cgnr_witness :
    (Evaluator.Create
        (sampleOptions LinearSolverType.CGNR
          SparseLinearAlgebraLibraryType.CUDA_SPARSE true)
        sampleProgram none).outcome =
      Outcome.returned (some
        { preparer := EvaluatePreparer.ScratchEvaluatePreparer,
          writer := JacobianWriter.CompressedRowJacobianWriter,
          finalizer := none,
          options := sampleOptions LinearSolverType.CGNR
            SparseLinearAlgebraLibraryType.CUDA_SPARSE true,
          program := sampleProgram }) :=
  (Create_cgnr
    (sampleOptions LinearSolverType.CGNR
      SparseLinearAlgebraLibraryType.CUDA_SPARSE true)
    sampleProgram none (by decide) rfl).1 rfl

/-- Claim C2. With a non-null context and linear solver type
SPARSE_NORMAL_CHOLESKY, whatever the sparse library: if the dynamic-sparsity
flag is set, `Evaluator::Create` returns a non-null evaluator built from the
Scratch preparer, the DynamicCompressedRow writer and the DynamicCompressedRow
finalizer; if it is not set, it returns one built from the Block preparer and
the BlockSparse writer with no finalizer. -/
theorem Create_sparse_normal_cholesky (o : Evaluator.Options) (p : Program)
    (ep : Option String) (hctx : o.context ≠ none)
    (ht : o.linear_solver_type = LinearSolverType.SPARSE_NORMAL_CHOLESKY) :
    (o.dynamic_sparsity = true →
      (Evaluator.Create o p ep).outcome =
        Outcome.returned (some
          { preparer := EvaluatePreparer.ScratchEvaluatePreparer,
            writer := JacobianWriter.DynamicCompressedRowJacobianWriter,
            finalizer := some JacobianFinalizer.DynamicCompressedRowJacobianFinalizer,
            options := o, program := p })) ∧
    (o.dynamic_sparsity = false →
      (Evaluator.Create o p ep).outcome =
        Outcome.returned (some
          { preparer := EvaluatePreparer.BlockEvaluatePreparer,
            writer := JacobianWriter.BlockJacobianWriter,
            finalizer := none, options := o, program := p })) := by
  obtain ⟨nt, lst, lib, dyn, ctx⟩ := o
  cases ctx with
  | none => exact absurd rfl hctx
  | some c =>
    simp only at ht
    subst ht
    cases dyn <;> simp [Evaluator.Create]

/-- Witness for claim C2: SPARSE_NORMAL_CHOLESKY with the dynamic-sparsity flag
set selects the DynamicCompressedRow writer and finalizer. -/
theorem Create_sparse_normal_cholesky_witness :
    (Evaluator.Create
        (sampleOptions LinearSolverType.SPARSE_NORMAL_CHOLESKY
          (SparseLinearAlgebraLibraryType.other 0) true)
        sampleProgram none).outcome =
      Outcome.returned (some
        { preparer := EvaluatePreparer.ScratchEvaluatePreparer,
          writer := JacobianWriter.DynamicCompressedRowJacobianWriter,
          finalizer := some JacobianFinalizer.DynamicCompressedRowJacobianFinalizer,
          options := sampleOptions LinearSolverType.SPARSE_NORMAL_CHOLESKY
            (SparseLinearAlgebraLibraryType.other 0) true,
          program := sampleProgram }) :=
  (Create_sparse_normal_cholesky
    (sampleOptions LinearSolverType.SPARSE_NORMAL_CHOLESKY
      (SparseLinearAlgebraLibraryType.other 0) true)
    sampleProgram none (by decide) rfl).1 rfl

/-! ## Which configurations select the Block preparer and the finalizer -/

/-- Claim C8, as stated, fails: with a non-null context, the dynamic-sparsity
flag set and linear solver type DENSE_SCHUR, `Evaluator::Create` returns an
evaluator that uses the Block preparer. -/
theorem Create_dynamic_sparsity_block_preparer :
    (sampleOptions LinearSolverType.DENSE_SCHUR
        (SparseLinearAlgebraLibraryType.other 0) true).context ≠ none ∧
    (sampleOptions LinearSolverType.DENSE_SCHUR
        (SparseLinearAlgebraLibraryType.other 0) true).dynamic_sparsity = true ∧
    ∃ ev : ProgramEvaluator,
      (Evaluator.Create
          (sampleOptions LinearSolverType.DENSE_SCHUR
            (SparseLinearAlgebraLibraryType.other 0) true)
          sampleProgram (some "")).outcome = Outcome.returned (some ev) ∧
      ev.preparer = EvaluatePreparer.BlockEvaluatePreparer :=
  ⟨by decide, rfl,
   { preparer := EvaluatePreparer.BlockEvaluatePreparer,
     writer := JacobianWriter.BlockJacobianWriter,
     finalizer := none,
     options := sampleOptions LinearSolverType.DENSE_SCHUR
       (SparseLinearAlgebraLibraryType.other 0) true,
     program := sampleProgram }, rfl, rfl⟩

/-- Claim C8, amended. With a non-null context and the dynamic-sparsity flag
set, the evaluator `Evaluator::Create` returns uses the Block preparer exactly
when the linear solver type is DENSE_SCHUR, SPARSE_SCHUR or ITERATIVE_SCHUR, or
is CGNR with a sparse library other than CUDA_SPARSE: the cases that do not
consult the flag. In every other configuration with the flag set, among them
SPARSE_NORMAL_CHOLESKY, no evaluator with the Block preparer is returned. -/
theorem Create_dynamic_sparsity_block_iff (o : Evaluator.Options) (p : Program)
    (ep : Option String) (hctx : o.context ≠ none)
    (hdyn : o.dynamic_sparsity = true) :
    (∃ ev : ProgramEvaluator,
      (Evaluator.Create o p ep).outcome = Outcome.returned (some ev) ∧
      ev.preparer = EvaluatePreparer.BlockEvaluatePreparer) ↔
    (o.linear_solver_type = LinearSolverType.DENSE_SCHUR ∨
     o.linear_solver_type = LinearSolverType.SPARSE_SCHUR ∨
     o.linear_solver_type = LinearSolverType.ITERATIVE_SCHUR ∨
     (o.linear_solver_type = LinearSolverType.CGNR ∧
      o.sparse_linear_algebra_library_type ≠
        SparseLinearAlgebraLibraryType.CUDA_SPARSE)) := by
  obtain ⟨nt, lst, lib, dyn, ctx⟩ := o
  cases ctx with
  | none => exact absurd rfl hctx
  | some c =>
    simp only at hdyn
    subst hdyn
    cases lst <;> cases lib <;> cases ep <;> simp [Evaluator.Create]

/-- Witness for the amended claim C8: SPARSE_NORMAL_CHOLESKY with the
dynamic-sparsity flag set returns no evaluator that uses the Block preparer. -/
theorem Create_dynamic_sparsity_block_iff_witness :
    (sampleOptions LinearSolverType.SPARSE_NORMAL_CHOLESKY
        (SparseLinearAlgebraLibraryType.other 0) true).context ≠ none ∧
    (sampleOptions LinearSolverType.SPARSE_NORMAL_CHOLESKY
        (SparseLinearAlgebraLibraryType.other 0) true).dynamic_sparsity = true ∧
    ¬ ∃ ev : ProgramEvaluator,
      (Evaluator.Create
          (sampleOptions LinearSolverType.SPARSE_NORMAL_CHOLESKY
            (SparseLinearAlgebraLibraryType.other 0) true)
          sampleProgram (some "")).outcome = Outcome.returned (some ev) ∧
      ev.preparer = EvaluatePreparer.BlockEvaluatePreparer :=
  ⟨by decide, rfl, fun h =>
    absurd
      ((Create_dynamic_sparsity_block_iff
          (sampleOptions LinearSolverType.SPARSE_NORMAL_CHOLESKY
            (SparseLinearAlgebraLibraryType.other 0) true)
          sampleProgram (some "") (by decide) rfl).1 h)
      (by decide)⟩

/-- Claim C9. With a non-null context, if the evaluator `Evaluator::Create`
returns has the DynamicCompressedRow finalizer, then the dynamic-sparsity flag
is set and its writer is the DynamicCompressedRow writer; every other returned
evaluator has no finalizer. The finalizer is present exactly for
SPARSE_NORMAL_CHOLESKY with the flag set. -/
theorem Create_finalizer_only_dynamic (o : Evaluator.Options) (p : Program)
    (ep : Option String) (ev : ProgramEvaluator) (hctx : o.context ≠ none)
    (hret : (Evaluator.Create o p ep).outcome = Outcome.returned (some ev)) :
    (ev.finalizer = some JacobianFinalizer.DynamicCompressedRowJacobianFinalizer →
      o.dynamic_sparsity = true ∧
      ev.writer = JacobianWriter.DynamicCompressedRowJacobianWriter) ∧
    (ev.finalizer ≠ some JacobianFinalizer.DynamicCompressedRowJacobianFinalizer →
      ev.finalizer = none) ∧
    (ev.finalizer = some JacobianFinalizer.DynamicCompressedRowJacobianFinalizer ↔
      o.linear_solver_type = LinearSolverType.SPARSE_NORMAL_CHOLESKY ∧
      o.dynamic_sparsity = true) := by
  obtain ⟨nt, lst, lib, dyn, ctx⟩ := o
  cases ctx with
  | none => exact absurd rfl hctx
  | some c =>
    cases lst <;> cases lib <;> cases dyn <;> cases ep <;>
      simp [Evaluator.Create] at hret <;> subst hret <;> simp

/-- Witness for claim C9: the evaluator returned for SPARSE_NORMAL_CHOLESKY with
the dynamic-sparsity flag set has the finalizer and the DynamicCompressedRow
writer. -/
theorem Create_finalizer_only_dynamic_witness :
    (sampleOptions LinearSolverType.SPARSE_NORMAL_CHOLESKY
        SparseLinearAlgebraLibraryType.CUDA_SPARSE true).context ≠ none ∧
    (Evaluator.Create
        (sampleOptions LinearSolverType.SPARSE_NORMAL_CHOLESKY
          SparseLinearAlgebraLibraryType.CUDA_SPARSE true)
        sampleProgram none).outcome =
      Outcome.returned (some
        { preparer := EvaluatePreparer.ScratchEvaluatePreparer,
          writer := JacobianWriter.DynamicCompressedRowJacobianWriter,
          finalizer := some JacobianFinalizer.DynamicCompressedRowJacobianFinalizer,
          options := sampleOptions LinearSolverType.SPARSE_NORMAL_CHOLESKY
            SparseLinearAlgebraLibraryType.CUDA_SPARSE true,
          program := sampleProgram }) ∧
    (sampleOptions LinearSolverType.SPARSE_NORMAL_CHOLESKY
        SparseLinearAlgebraLibraryType.CUDA_SPARSE true).dynamic_sparsity = true :=
  ⟨by decide, rfl,
   ((Create_finalizer_only_dynamic
      (sampleOptions LinearSolverType.SPARSE_NORMAL_CHOLESKY
        SparseLinearAlgebraLibraryType.CUDA_SPARSE true)
      sampleProgram none
      { preparer := EvaluatePreparer.ScratchEvaluatePreparer,
        writer := JacobianWriter.DynamicCompressedRowJacobianWriter,
        finalizer := some JacobianFinalizer.DynamicCompressedRowJacobianFinalizer,
        options := sampleOptions LinearSolverType.SPARSE_NORMAL_CHOLESKY
          SparseLinearAlgebraLibraryType.CUDA_SPARSE true,
        program := sampleProgram }
      (by decide) rfl).1 rfl).1⟩

end ceres.internal
